import Mathlib

/-!
Verification of the departure-cache and FlightStats-scrape core of the
airport-traffic repository, as a shallow embedding in Lean.

The embedding translates `app/services/departure_cache.py` and
`app/services/fetch/flightstats_fetch.py`.  Python values flowing through
`json.load`/`json.loads` are modelled by the inductive `Json`; Python
exceptions are modelled by the `PyErr` type and fallible code returns
`Except PyErr _`.  External effects (the HTTP GET, the `json.loads` call on
the scraped span, and the state of the cache file) are passed in explicitly
as parameters, so every definition is executable.
-/

/-- A Python exception value, by class, with its message. -/
inductive PyErr where
  | keyError (msg : String)
  | valueError (msg : String)
  | typeError (msg : String)
  | attributeError (msg : String)
  | osError (msg : String)
  | jsonDecodeError (msg : String)
  | runtimeError (msg : String)
  | overflowError (msg : String)
  | unicodeDecodeError (msg : String)
deriving DecidableEq, Repr

instance exceptDecEq {e : Type} {a : Type} [DecidableEq e] [DecidableEq a] :
    DecidableEq (Except e a) := fun x y =>
  match x, y with
  | .ok u, .ok v => if h : u = v then .isTrue (by rw [h]) else .isFalse (by simp [h])
  | .error u, .error v => if h : u = v then .isTrue (by rw [h]) else .isFalse (by simp [h])
  | .ok _, .error _ => .isFalse (by simp)
  | .error _, .ok _ => .isFalse (by simp)

/-- A JSON-representable Python value (`None`, `bool`, `int`, `str`, `list`,
`dict`).  JSON floats do not occur in any cache file the code itself writes
nor in the fields the parser inspects, so numbers are modelled as integers. -/
inductive Json where
  | null
  | bool (b : Bool)
  | num (n : Int)
  | str (s : String)
  | arr (elems : List Json)
  | obj (members : List (String × Json))
deriving Repr

mutual
def Json.beq : Json → Json → Bool
  | .null, .null => true
  | .bool a, .bool b => a == b
  | .num a, .num b => a == b
  | .str a, .str b => a == b
  | .arr a, .arr b => Json.beqList a b
  | .obj a, .obj b => Json.beqMembers a b
  | _, _ => false
def Json.beqList : List Json → List Json → Bool
  | [], [] => true
  | a :: as, b :: bs => Json.beq a b && Json.beqList as bs
  | _, _ => false
def Json.beqMembers : List (String × Json) → List (String × Json) → Bool
  | [], [] => true
  | (k, v) :: as, (k2, v2) :: bs => k == k2 && Json.beq v v2 && Json.beqMembers as bs
  | _, _ => false
end

mutual
theorem Json.beq_iff : ∀ a b : Json, Json.beq a b = true ↔ a = b
  | .null, b => by cases b <;> simp [Json.beq]
  | .bool x, b => by cases b <;> simp [Json.beq]
  | .num x, b => by cases b <;> simp [Json.beq]
  | .str x, b => by cases b <;> simp [Json.beq]
  | .arr xs, b => by
      cases b <;> simp [Json.beq]
      exact Json.beqList_iff xs _
  | .obj ms, b => by
      cases b <;> simp [Json.beq]
      exact Json.beqMembers_iff ms _
theorem Json.beqList_iff : ∀ a b : List Json, Json.beqList a b = true ↔ a = b
  | [], b => by cases b <;> simp [Json.beqList]
  | x :: xs, b => by
      cases b with
      | nil => simp [Json.beqList]
      | cons y ys =>
          simp [Json.beqList, Bool.and_eq_true, Json.beq_iff x y, Json.beqList_iff xs ys]
theorem Json.beqMembers_iff :
    ∀ a b : List (String × Json), Json.beqMembers a b = true ↔ a = b
  | [], b => by cases b <;> simp [Json.beqMembers]
  | (k, v) :: xs, b => by
      cases b with
      | nil => simp [Json.beqMembers]
      | cons y ys =>
          obtain ⟨k2, v2⟩ := y
          simp [Json.beqMembers, Bool.and_eq_true, Json.beq_iff v v2,
            Json.beqMembers_iff xs ys, and_assoc]
end

instance : DecidableEq Json := fun a b =>
  decidable_of_iff (Json.beq a b = true) (Json.beq_iff a b)

/-- Python truthiness of a JSON-representable value (`bool(x)`). -/
def Json.truthy : Json → Bool
  | .null => false
  | .bool b => b
  | .num n => n != 0
  | .str s => s ≠ ""
  | .arr xs => !xs.isEmpty
  | .obj ms => !ms.isEmpty

def Json.isObj : Json → Bool
  | .obj _ => true
  | _ => false

def Json.isArr : Json → Bool
  | .arr _ => true
  | _ => false

/-- Key lookup on an object; `none` for a missing key or a non-object. -/
def Json.lookup? : Json → String → Option Json
  | .obj ms, k => ms.lookup k
  | _, _ => none

/-- `d.get(k)` on a Python dict (returns `None` when absent); raises
`AttributeError` when the receiver is not a dict. -/
def Json.pyGet (j : Json) (k : String) (dflt : Json) : Except PyErr Json :=
  match j with
  | .obj ms => .ok ((ms.lookup k).getD dflt)
  | _ => .error (.attributeError "object has no attribute get")

/-- `d[k]` on a Python dict: `KeyError` when the key is absent. -/
def Json.getItem (j : Json) (k : String) : Except PyErr Json :=
  match j with
  | .obj ms =>
      match ms.lookup k with
      | some v => .ok v
      | none => .error (.keyError k)
  | _ => .error (.typeError "object is not subscriptable")

/-- A naive `datetime.datetime` (the code strips all timezone info). -/
structure Datetime where
  year : Nat
  month : Nat
  day : Nat
  hour : Nat
  minute : Nat
  second : Nat
  microsecond : Nat
deriving DecidableEq, Repr

/-- Python datetime comparison: lexicographic on the seven fields. -/
def Datetime.ltb (a b : Datetime) : Bool :=
  if a.year ≠ b.year then decide (a.year < b.year)
  else if a.month ≠ b.month then decide (a.month < b.month)
  else if a.day ≠ b.day then decide (a.day < b.day)
  else if a.hour ≠ b.hour then decide (a.hour < b.hour)
  else if a.minute ≠ b.minute then decide (a.minute < b.minute)
  else if a.second ≠ b.second then decide (a.second < b.second)
  else decide (a.microsecond < b.microsecond)

def isLeapYear (y : Nat) : Bool :=
  y % 4 == 0 && (y % 100 != 0 || y % 400 == 0)

def daysInMonth (y m : Nat) : Nat :=
  if m = 2 then (if isLeapYear y then 29 else 28)
  else if m = 4 ∨ m = 6 ∨ m = 9 ∨ m = 11 then 30
  else 31

/-- The Gregorian day successor: the value `dt + timedelta(days=1)` produces
whenever it does not overflow.  `Datetime.addDayChecked` models the Python
operation itself. -/
def Datetime.addDay (d : Datetime) : Datetime :=
  if d.day < daysInMonth d.year d.month then { d with day := d.day + 1 }
  else if d.month < 12 then { d with month := d.month + 1, day := 1 }
  else { d with year := d.year + 1, month := 1, day := 1 }

/-- `dt + timedelta(days=1)`: raises `OverflowError` when the result would
pass `datetime.max` (year 9999), as CPython does. -/
def Datetime.addDayChecked (d : Datetime) : Except PyErr Datetime :=
  if d.year = 9999 ∧ d.month = 12 ∧ d.day = 31 then
    .error (.overflowError "date value out of range")
  else .ok d.addDay

/-- The invariant every Python `datetime` object satisfies by construction. -/
def Datetime.Valid (d : Datetime) : Prop :=
  1 ≤ d.year ∧ d.year ≤ 9999 ∧ 1 ≤ d.month ∧ d.month ≤ 12 ∧
  1 ≤ d.day ∧ d.day ≤ daysInMonth d.year d.month ∧
  d.hour ≤ 23 ∧ d.minute ≤ 59 ∧ d.second ≤ 59 ∧ d.microsecond ≤ 999999

instance (d : Datetime) : Decidable d.Valid := by
  unfold Datetime.Valid; infer_instance

/-- The decimal digit character for `n % 10`. -/
def digitChar10 (n : Nat) : Char :=
  if n % 10 = 0 then '0' else if n % 10 = 1 then '1' else if n % 10 = 2 then '2'
  else if n % 10 = 3 then '3' else if n % 10 = 4 then '4' else if n % 10 = 5 then '5'
  else if n % 10 = 6 then '6' else if n % 10 = 7 then '7' else if n % 10 = 8 then '8'
  else '9'

/-- Numeric value of a decimal digit character. -/
def digitVal (c : Char) : Nat := c.toNat - 48

def pad2 (n : Nat) : List Char := [digitChar10 (n / 10), digitChar10 n]

def pad4 (n : Nat) : List Char :=
  [digitChar10 (n / 1000), digitChar10 (n / 100), digitChar10 (n / 10), digitChar10 n]

def pad6 (n : Nat) : List Char :=
  [digitChar10 (n / 100000), digitChar10 (n / 10000), digitChar10 (n / 1000),
   digitChar10 (n / 100), digitChar10 (n / 10), digitChar10 n]

/-- `datetime.isoformat()` on a naive datetime: `YYYY-MM-DDTHH:MM:SS`, with a
`.ffffff` fraction exactly when the microsecond field is nonzero. -/
def Datetime.isoformatChars (d : Datetime) : List Char :=
  pad4 d.year ++ '-' :: pad2 d.month ++ '-' :: pad2 d.day ++
  'T' :: pad2 d.hour ++ ':' :: pad2 d.minute ++ ':' :: pad2 d.second ++
  (if d.microsecond = 0 then [] else '.' :: pad6 d.microsecond)

def Datetime.isoformat (d : Datetime) : String := String.mk d.isoformatChars

def val2 (a b : Char) : Nat := digitVal a * 10 + digitVal b

def val4 (a b c d : Char) : Nat :=
  ((digitVal a * 10 + digitVal b) * 10 + digitVal c) * 10 + digitVal d

/-- A trailing UTC-offset suffix `±HH:MM` (or nothing), validated to a
well-formed offset.  `datetime.fromisoformat` parses such a suffix into a
`tzinfo`; every caller in the code immediately strips the timezone, so the
offset is checked and discarded. -/
def offsetOk : List Char → Bool
  | [] => true
  | s :: h1 :: h2 :: ':' :: m1 :: m2 :: [] =>
      (s = '+' || s = '-') && h1.isDigit && h2.isDigit && m1.isDigit && m2.isDigit &&
      decide (val2 h1 h2 ≤ 23) && decide (val2 m1 m2 ≤ 59)
  | _ => false

/-- The fractional-seconds part (3 or 6 digits after a dot, or nothing),
followed by an optional offset; returns the microsecond value. -/
def parseFracOffset (cs : List Char) : Option Nat :=
  match cs with
  | '.' :: rest =>
      let ds := rest.takeWhile Char.isDigit
      let tail := rest.dropWhile Char.isDigit
      if ds.length = 3 ∧ offsetOk tail then
        some ((ds.foldl (fun acc c => acc * 10 + digitVal c) 0) * 1000)
      else if ds.length = 6 ∧ offsetOk tail then
        some (ds.foldl (fun acc c => acc * 10 + digitVal c) 0)
      else none
  | rest => if offsetOk rest then some 0 else none

/-- The time-of-day part of an ISO string: empty (midnight) or one separator
character followed by `HH:MM:SS` and an optional fraction/offset; returns
`(hour, minute, second, microsecond)`. -/
def parseIsoTime : List Char → Option (Nat × Nat × Nat × Nat)
  | [] => some (0, 0, 0, 0)
  | _ :: h1 :: h2 :: c1 :: m1 :: m2 :: c2 :: s1 :: s2 :: rest =>
      if c1 = ':' ∧ c2 = ':' ∧ h1.isDigit ∧ h2.isDigit ∧ m1.isDigit ∧ m2.isDigit ∧
          s1.isDigit ∧ s2.isDigit then
        match parseFracOffset rest with
        | some us => some (val2 h1 h2, val2 m1 m2, val2 s1 s2, us)
        | none => none
      else none
  | _ => none

/-- `datetime.fromisoformat` (with the timezone stripped), modelled on the
grammar `YYYY-MM-DD[*HH:MM:SS[.fff[fff]][±HH:MM]]` — the full output grammar of
`datetime.isoformat` plus the offsets the code's `Z`-normalisation produces.
Any other string, and any out-of-range field, is a `ValueError`, as in Python. -/
def fromisoformat (cs : List Char) : Except PyErr Datetime :=
  match cs with
  | y1 :: y2 :: y3 :: y4 :: sep1 :: mo1 :: mo2 :: sep2 :: d1 :: d2 :: rest =>
      if sep1 = '-' ∧ sep2 = '-' ∧ y1.isDigit ∧ y2.isDigit ∧ y3.isDigit ∧ y4.isDigit ∧
          mo1.isDigit ∧ mo2.isDigit ∧ d1.isDigit ∧ d2.isDigit then
        match parseIsoTime rest with
        | some (hh, mi, ss, us) =>
            let y := val4 y1 y2 y3 y4
            let mo := val2 mo1 mo2
            let dd := val2 d1 d2
            if 1 ≤ y ∧ 1 ≤ mo ∧ mo ≤ 12 ∧ 1 ≤ dd ∧ dd ≤ daysInMonth y mo ∧
                hh ≤ 23 ∧ mi ≤ 59 ∧ ss ≤ 59 then
              .ok ⟨y, mo, dd, hh, mi, ss, us⟩
            else .error (.valueError "field out of range in isoformat string")
        | none => .error (.valueError "Invalid isoformat string")
      else .error (.valueError "Invalid isoformat string")
  | _ => .error (.valueError "Invalid isoformat string")

/-- `datetime.fromisoformat` applied to a Python value: a non-string argument
is a `TypeError` (not a `ValueError`), exactly as in CPython. -/
def fromisoformatValue (v : Json) : Except PyErr Datetime :=
  match v with
  | .str s => fromisoformat s.data
  | _ => .error (.typeError "fromisoformat: argument must be str")

/-- Python whitespace, as stripped by `str.strip()` (ASCII range). -/
def isStripSpace (c : Char) : Bool :=
  c = ' ' || c = '\t' || c = '\n' || c = '\x0d' || c = '\x0b' || c = '\x0c'

/-- `str.strip()` on the character list. -/
def trimChars (cs : List Char) : List Char :=
  ((cs.dropWhile isStripSpace).reverse.dropWhile isStripSpace).reverse

/-- Python `s.split(sep)` for a one-character separator. -/
def splitOnChar (sep : Char) : List Char → List (List Char)
  | [] => [[]]
  | c :: rest =>
      if c = sep then [] :: splitOnChar sep rest
      else
        match splitOnChar sep rest with
        | [] => [[c]]
        | g :: gs => (c :: g) :: gs

/-- Digit run of Python `int(str)` after the optional sign: decimal digits with
single underscores allowed between digits. -/
def pyIntDigits (acc : Nat) : List Char → Option Nat
  | [] => some acc
  | '_' :: c :: rest => if c.isDigit then pyIntDigits (acc * 10 + digitVal c) rest else none
  | c :: rest => if c.isDigit then pyIntDigits (acc * 10 + digitVal c) rest else none

/-- Python `int(s)`: surrounding whitespace stripped, optional sign, then a
nonempty digit run; anything else is a `ValueError` (here `none`). -/
def pyInt (s : String) : Option Int :=
  match trimChars s.data with
  | '+' :: c :: rest =>
      if c.isDigit then (pyIntDigits (digitVal c) rest).map Int.ofNat else none
  | '-' :: c :: rest =>
      if c.isDigit then (pyIntDigits (digitVal c) rest).map (fun n => -(n : Int)) else none
  | c :: rest =>
      if c.isDigit then (pyIntDigits (digitVal c) rest).map Int.ofNat else none
  | [] => none

/-- The `FlightRecord` dataclass.  Python does not enforce the annotated field
types, and `_record_from_dict` stores whatever JSON value the cache file held
in the non-timestamp fields, so those fields carry `Json` values; the two
timestamp fields always hold `datetime` objects. -/
structure FlightRecord where
  departure_airport : Json
  departure_time : Datetime
  arrival_city : Json
  arrival_time : Datetime
  airline : Json
  flight_number : Json
  estimated_passengers : Json
deriving DecidableEq, Repr

/-- `_record_to_dict`: the cache representation of a record, timestamps as
ISO-formatted strings. -/
def record_to_dict (r : FlightRecord) : Json :=
  .obj [
    ("departure_airport", r.departure_airport),
    ("departure_time", .str r.departure_time.isoformat),
    ("arrival_city", r.arrival_city),
    ("arrival_time", .str r.arrival_time.isoformat),
    ("airline", r.airline),
    ("flight_number", r.flight_number),
    ("estimated_passengers", r.estimated_passengers)]

/-- `data.get(k)` on a dict with Python's `None` default, for a value already
known to be a dict (the caller checked `isinstance(item, dict)`). -/
def Json.dictGetD (j : Json) (k : String) (dflt : Json) : Json :=
  match j with
  | .obj ms => (ms.lookup k).getD dflt
  | _ => dflt

/-- `_record_from_dict`: field reconstruction in the dataclass argument order;
a missing key raises `KeyError`, a bad timestamp string raises `ValueError`,
and a non-string timestamp value raises `TypeError`. -/
def record_from_dict (data : Json) : Except PyErr FlightRecord := do
  let da ← data.getItem "departure_airport"
  let dts ← data.getItem "departure_time"
  let dep ← fromisoformatValue dts
  let ac ← data.getItem "arrival_city"
  let ats ← data.getItem "arrival_time"
  let arr ← fromisoformatValue ats
  let al ← data.getItem "airline"
  let fn ← data.getItem "flight_number"
  let ep := data.dictGetD "estimated_passengers" .null
  return ⟨da, dep, ac, arr, al, fn, ep⟩

/-- The per-item loop of `_load_from_cache`: non-dict items are skipped, items
raising `KeyError`/`ValueError` during reconstruction are skipped, any other
exception propagates. -/
def loadItems : List Json → Except PyErr (List FlightRecord)
  | [] => .ok []
  | item :: rest =>
      if item.isObj then
        match record_from_dict item with
        | .ok r => do
            let rs ← loadItems rest
            return r :: rs
        | .error (.keyError _) => loadItems rest
        | .error (.valueError _) => loadItems rest
        | .error e => .error e
      else loadItems rest

/-- The observable state of the cache file for one key: absent, unreadable
(`OSError` on open/read), readable but not valid UTF-8 (`json.load` raises
`UnicodeDecodeError`, which neither except clause catches), readable but not
JSON (`json.JSONDecodeError`), or readable with JSON content `j`. -/
inductive FileState where
  | missing
  | ioError
  | badEncoding
  | badJson
  | good (j : Json)
deriving DecidableEq, Repr

/-- `path.exists()` for the modelled cache file. -/
def FileState.existsb : FileState → Bool
  | .missing => false
  | _ => true

/-- `_load_from_cache`: `None` (a full cache miss) when the file cannot be
opened or parsed or its top level is not a list; otherwise the per-item loop. -/
def load_from_cache : FileState → Except PyErr (Option (List FlightRecord))
  | .missing => .ok none
  | .ioError => .ok none
  | .badEncoding => .error (.unicodeDecodeError "invalid continuation byte")
  | .badJson => .ok none
  | .good j =>
      match j with
      | .arr items => (loadItems items).map some
      | _ => .ok none

/-- The airport-code normalisation in `_cache_file`:
`airport_code.strip().upper() or "UNKNOWN"`. -/
def sanitizeAirport (s : String) : String :=
  let t := String.mk ((trimChars s.data).map Char.toUpper)
  if t = "" then "UNKNOWN" else t

/-- Python `f"{n:0wd}"`: zero-padded decimal, sign included in the width. -/
def intPad (w : Nat) (n : Int) : String :=
  if n < 0 then "-" ++ natPadStr (w - 1) (-n).toNat else natPadStr w n.toNat
where
  natPadStr (w : Nat) (n : Nat) : String :=
    let s := toString n
    String.mk (List.replicate (w - s.length) '0' ++ s.data)

/-- `_cache_file`: the cache filename for a key,
`{SANITIZED}_{year:04d}{month:02d}{day:02d}_{hour:02d}.json`. -/
def cache_file (airport_code : String) (year month day hour : Int) : String :=
  sanitizeAirport airport_code ++ "_" ++ intPad 4 year ++ intPad 2 month ++
  intPad 2 day ++ "_" ++ intPad 2 hour ++ ".json"

/-- Python regex whitespace class for the marker pattern. -/
def isPySpace (c : Char) : Bool :=
  c = ' ' || c = '\t' || c = '\n' || c = '\x0d' || c = '\x0b' || c = '\x0c'

def nextDataMarker : List Char := "__NEXT_DATA__".data

def loadedPagesMarker : List Char := ";__NEXT_LOADED_PAGES__".data

/-- Consume an exact literal prefix, returning the remainder. -/
def dropLit : List Char → List Char → Option (List Char)
  | [], cs => some cs
  | l :: ls, c :: cs => if c = l then dropLit ls cs else none
  | _ :: _, [] => none

/-- The lazy body scan of the marker regex: after the opening brace, consume as
few characters as possible until a closing brace followed by optional
whitespace and the trailing marker; returns the consumed body including the
closing brace. -/
def findClose (acc : List Char) : List Char → Option (List Char)
  | [] => none
  | c :: rest =>
      if c = '\x7d' ∧ (dropLit loadedPagesMarker (rest.dropWhile isPySpace)).isSome then
        some (acc.reverse ++ ['\x7d'])
      else findClose (c :: acc) rest

/-- Match the full `_NEXT_DATA_PATTERN` anchored at the given position,
returning the captured group (the brace-delimited span). -/
def matchNextDataAt (cs : List Char) : Option (List Char) := do
  let r1 ← dropLit nextDataMarker cs
  let r2 := r1.dropWhile isPySpace
  let r3 ← dropLit ['='] r2
  let r4 := r3.dropWhile isPySpace
  let r5 ← dropLit ['\x7b'] r4
  let body ← findClose [] r5
  return '\x7b' :: body

/-- `_NEXT_DATA_PATTERN.search`: leftmost match of the marker pattern,
returning the captured JSON span. -/
def searchNextData : List Char → Option (List Char)
  | [] => none
  | c :: rest =>
      match matchNextDataAt (c :: rest) with
      | some g => some g
      | none => searchNextData rest

/-- `_extract_next_data`: locate the marker-delimited span and hand it to
`json.loads`.  `json.loads` is an external library call, passed in as the
`loads` parameter (its failure is the propagated `JSONDecodeError`). -/
def extract_next_data (loads : String → Except PyErr Json) (html : String) :
    Except PyErr Json :=
  match searchNextData html.data with
  | none => .error (.valueError "Could not locate FlightStats payload in response HTML.")
  | some span => loads (String.mk span)

def flightsPath : List String :=
  ["props", "initialState", "flightTracker", "route", "flights"]

/-- `_walk_path`: nested key lookups, raising a `KeyError` that names the first
segment that is absent (or whose parent is not a dict). -/
def walk_path (current : Json) : List String → Except PyErr Json
  | [] => .ok current
  | segment :: rest =>
      match current.lookup? segment with
      | some v => walk_path v rest
      | none =>
          .error (.keyError ("Missing segment \x27" ++ segment ++
            "\x27 while traversing Next.js payload"))

/-- `_parse_sort_time`: the value must be a nonempty string; a trailing `Z` is
rewritten to `+00:00`; the result is parsed with `fromisoformat` and the
timezone stripped. -/
def parse_sort_time (v : Json) : Except PyErr Datetime :=
  match v with
  | .str s =>
      if s = "" then .error (.valueError "Flight record missing sortTime value")
      else
        let normalized :=
          if s.data.getLast? = some 'Z' then s.data.dropLast ++ "+00:00".data else s.data
        fromisoformat normalized
  | _ => .error (.valueError "Flight record missing sortTime value")

/-- `departure_dt.replace(hour=h, minute=m, second=0, microsecond=0)` with the
range checks already done. -/
def Datetime.replaceTime (d : Datetime) (h m : Nat) : Datetime :=
  { d with hour := h, minute := m, second := 0, microsecond := 0 }

/-- `_compose_arrival_datetime`: default to the departure time unless the
payload is a dict whose `time24` field is a string containing a colon whose
first two colon-separated fields both parse with `int`.  `replace` then
converts both arguments to C int (CPython raises `OverflowError` for values
outside that range, hour first) and validates them (`ValueError` when the hour
is not in 0..23 or the minute not in 0..59, hour first); the result rolls
forward one day when strictly earlier than departure, which itself raises
`OverflowError` past `datetime.max`. -/
def compose_arrival_datetime (departure_dt : Datetime) (arrival_payload : Json) :
    Except PyErr Datetime :=
  match arrival_payload with
  | .obj ms =>
      match (ms.lookup "time24").getD .null with
      | .str time24 =>
          if time24.data.elem ':' then
            match splitOnChar ':' time24.data with
            | p0 :: p1 :: _ =>
                match pyInt (String.mk p0), pyInt (String.mk p1) with
                | some hour, some minute =>
                    if hour < -2147483648 ∨ 2147483647 < hour then
                      .error (.overflowError "Python int too large to convert to C int")
                    else if minute < -2147483648 ∨ 2147483647 < minute then
                      .error (.overflowError "Python int too large to convert to C int")
                    else if 0 ≤ hour ∧ hour ≤ 23 then
                      if 0 ≤ minute ∧ minute ≤ 59 then
                        let arrival_dt := departure_dt.replaceTime hour.toNat minute.toNat
                        if arrival_dt.ltb departure_dt then arrival_dt.addDayChecked
                        else .ok arrival_dt
                      else .error (.valueError "minute must be in 0..59")
                    else .error (.valueError "hour must be in 0..23")
                | _, _ => .ok departure_dt
            | _ => .ok departure_dt
          else .ok departure_dt
      | _ => .ok departure_dt
  | _ => .ok departure_dt

/-- Python `a or b` on JSON-representable values. -/
def pyOr (a b : Json) : Json := if a.truthy then a else b

/-- `v.strip()`: whitespace strip on strings, `AttributeError` otherwise. -/
def pyStrip (v : Json) : Except PyErr String :=
  match v with
  | .str s => .ok (String.mk (trimChars s.data))
  | _ => .error (.attributeError "object has no attribute strip")

/-- `v.strip("/")`: slash strip on strings, `AttributeError` otherwise. -/
def pyStripSlashes (v : Json) : Except PyErr String :=
  match v with
  | .str s =>
      .ok (String.mk (((s.data.dropWhile (· = '/')).reverse.dropWhile (· = '/')).reverse))
  | _ => .error (.attributeError "object has no attribute strip")

/-- The join `" ".join(part for part in (carrier_code, flight_number) if part)`. -/
def joinParts (a b : String) : String :=
  if a = "" then b else if b = "" then a else a ++ " " ++ b

/-- `_parse_flight_record`, line for line in the source's evaluation order. -/
def parse_flight_record (raw : Json) (departure_airport : String) :
    Except PyErr FlightRecord := do
  let sortTimeV ← raw.pyGet "sortTime" .null
  let departure_dt ← parse_sort_time sortTimeV
  let arrivalV ← raw.pyGet "arrivalTime" .null
  let arrival_dt ← compose_arrival_datetime departure_dt arrivalV
  let airportRaw ← raw.pyGet "airport" .null
  let airport_payload := if airportRaw.truthy then airportRaw else .obj []
  let carrierRaw ← raw.pyGet "carrier" .null
  let carrier_payload := if carrierRaw.truthy then carrierRaw else .obj []
  let city ← airport_payload.pyGet "city" .null
  let aname ← airport_payload.pyGet "name" .null
  let afs ← airport_payload.pyGet "fs" .null
  let arrival_city := pyOr city (pyOr aname (pyOr afs (.str "")))
  let cname ← carrier_payload.pyGet "name" .null
  let cfs ← carrier_payload.pyGet "fs" .null
  let airline := pyOr cname (pyOr cfs (.str ""))
  let cfsD ← carrier_payload.pyGet "fs" (.str "")
  let carrier_code ← pyStrip cfsD
  let fnV ← carrier_payload.pyGet "flightNumber" (.str "")
  let flight_number ← pyStrip fnV
  let combined_identifier := joinParts carrier_code flight_number
  let flight_identifier ←
    if combined_identifier ≠ "" then pure combined_identifier
    else do
      let u ← raw.pyGet "url" (.str "")
      let slug ← pyStripSlashes u
      pure (if slug ≠ "" then slug else "Unknown")
  return ⟨.str departure_airport, departure_dt, arrival_city, arrival_dt,
    airline, .str flight_identifier, .null⟩

/-- The entry loop of `fetch_flightstats_departures`: non-dict entries are
skipped before parsing, and a bare `except Exception: continue` absorbs every
per-entry parse failure. -/
def parseBatch (airport : String) : List Json → List FlightRecord
  | [] => []
  | entry :: rest =>
      if entry.isObj then
        match parse_flight_record entry airport with
        | .ok r => r :: parseBatch airport rest
        | .error _ => parseBatch airport rest
      else parseBatch airport rest

/-- `_validate_query`: range checks on month, day and hour (the year is not
checked), in source order. -/
def validate_query (month day hour : Int) : Except PyErr Unit :=
  if ¬(1 ≤ month ∧ month ≤ 12) then .error (.valueError "month must be between 1 and 12")
  else if ¬(1 ≤ day ∧ day ≤ 31) then .error (.valueError "day must be between 1 and 31")
  else if ¬(0 ≤ hour ∧ hour ≤ 23) then .error (.valueError "hour must be between 0 and 23")
  else .ok ()

/-- `fetch_flightstats_departures`: validate, perform the HTTP GET (its
outcome passed in as `httpResult`), extract the embedded payload, walk the
fixed key path, require a list, and run the tolerant entry loop. -/
def fetch_flightstats_departures (year month day hour : Int) (airport : String)
    (httpResult : Except PyErr String) (loads : String → Except PyErr Json) :
    Except PyErr (List FlightRecord) := do
  let _ ← validate_query month day hour
  let html ← httpResult
  let payload ← extract_next_data loads html
  let flights_payload ← walk_path payload flightsPath
  match flights_payload with
  | .arr entries => return parseBatch airport entries
  | _ => .error (.typeError "Unexpected flights payload returned by FlightStats")

/-- `fetch_departures`: the cache entry point.  The on-disk file for the key is
passed in as `file`; the function returns the result, the new file state, and
whether the upstream fetch pipeline was invoked.  A successful fetch is
persisted best-effort: `storeOk` says whether the write would succeed, and a
failing write (`OSError`) is swallowed. -/
def fetch_departures (airport_code : String) (year month day hour : Int)
    (use_cache : Bool) (file : FileState) (httpResult : Except PyErr String)
    (loads : String → Except PyErr Json) (storeOk : Bool) :
    Except PyErr (List FlightRecord) × FileState × Bool :=
  let doFetch :=
    match fetch_flightstats_departures year month day hour airport_code httpResult loads with
    | .error e => (.error e, file, true)
    | .ok flights =>
        (.ok flights,
         if storeOk then .good (.arr (flights.map record_to_dict)) else file,
         true)
  if use_cache && file.existsb then
    match load_from_cache file with
    | .error e => (.error e, file, false)
    | .ok (some cached) => (.ok cached, file, false)
    | .ok none => doFetch
  else doFetch

/-! ### Helper lemmas -/

theorem digitVal_digitChar10 (n : Nat) : digitVal (digitChar10 n) = n % 10 := by
  have h : n % 10 < 10 := Nat.mod_lt _ (by omega)
  unfold digitChar10 digitVal
  split_ifs with h0 h1 h2 h3 h4 h5 h6 h7 h8 <;> simp_all <;> omega

theorem isDigit_digitChar10 (n : Nat) : (digitChar10 n).isDigit = true := by
  unfold digitChar10
  split_ifs <;> decide

theorem data_mk (cs : List Char) : (String.mk cs).data = cs := rfl

theorem val2_pad2 (n : Nat) (h : n ≤ 99) :
    val2 (digitChar10 (n / 10)) (digitChar10 n) = n := by
  simp [val2, digitVal_digitChar10]; omega

theorem val4_pad4 (n : Nat) (h : n ≤ 9999) :
    val4 (digitChar10 (n / 1000)) (digitChar10 (n / 100)) (digitChar10 (n / 10))
      (digitChar10 n) = n := by
  simp [val4, digitVal_digitChar10]; omega

/-- Parsing the ISO rendering of a valid datetime recovers it exactly. -/
theorem fromisoformat_isoformat (d : Datetime) (h : d.Valid) :
    fromisoformat d.isoformatChars = .ok d := by
  obtain ⟨y, mo, dd, hh, mi, ss, us⟩ := d
  obtain ⟨h1, h2, h3, h4, h5, h6, h7, h8, h9, h10⟩ := h
  simp only [Datetime.Valid] at *
  have hdim : daysInMonth y mo ≤ 31 := by
    unfold daysInMonth; split_ifs <;> omega
  have ey := val4_pad4 y h2
  have em := val2_pad2 mo (by omega)
  have ed := val2_pad2 dd (by omega)
  have eh := val2_pad2 hh (by omega)
  have emi := val2_pad2 mi (by omega)
  have es := val2_pad2 ss (by omega)
  unfold Datetime.isoformatChars pad4 pad2 pad6
  by_cases hus : us = 0
  · simp [fromisoformat, parseIsoTime, parseFracOffset, offsetOk, isDigit_digitChar10,
      ey, em, ed, eh, emi, es, hus, h1, h3, h4, h5, h6, h7, h8, h9]
  · simp [fromisoformat, parseIsoTime, parseFracOffset, offsetOk, isDigit_digitChar10,
      ey, em, ed, eh, emi, es, hus, h1, h3, h4, h5, h6, h7, h8, h9,
      List.takeWhile, List.dropWhile, digitVal_digitChar10]
    omega

/-- Serialising a record and reconstructing it is the identity (for records
whose timestamps are valid datetimes, as every Python datetime is). -/
theorem record_round_trip (r : FlightRecord) (hd : r.departure_time.Valid)
    (ha : r.arrival_time.Valid) : record_from_dict (record_to_dict r) = .ok r := by
  simp [record_to_dict, record_from_dict, Json.getItem, Json.dictGetD, List.lookup,
    fromisoformatValue, Datetime.isoformat, data_mk, bind, Except.bind, pure, Except.pure,
    fromisoformat_isoformat _ hd, fromisoformat_isoformat _ ha]

theorem Datetime.ltb_self (d : Datetime) : d.ltb d = false := by
  simp [Datetime.ltb]

theorem addDay_not_ltb (dep : Datetime) (h mN : Nat) :
    ((dep.replaceTime h mN).addDay).ltb dep = false := by
  unfold Datetime.replaceTime Datetime.addDay Datetime.ltb
  split_ifs <;> simp_all

theorem compose_arrival_not_lt (dep : Datetime) (p : Json) (a : Datetime)
    (h : compose_arrival_datetime dep p = .ok a) : a.ltb dep = false := by
  unfold compose_arrival_datetime Datetime.addDayChecked at h
  repeat split at h
  all_goals try (split_ifs at h)
  all_goals try (simp only [] at h)
  all_goals try (split_ifs at h)
  all_goals try (cases h)
  all_goals try exact Datetime.ltb_self dep
  all_goals try exact addDay_not_ltb dep _ _
  all_goals simp_all

theorem exceptBind_ok_iff {e : Type} {a : Type} {b : Type} (x : Except e a)
    (f : a → Except e b) (v : b) :
    (Except.bind x f = .ok v) ↔ ∃ w, x = .ok w ∧ f w = .ok v := by
  cases x <;> simp [Except.bind]

theorem parse_flight_record_ok (raw : Json) (ap : String) (r : FlightRecord)
    (h : parse_flight_record raw ap = .ok r) :
    r.departure_airport = .str ap ∧ r.arrival_time.ltb r.departure_time = false := by
  simp only [parse_flight_record, bind, exceptBind_ok_iff, pure, Except.pure] at h
  obtain ⟨stv, e1, dep, e2, arrv, e3, arr, e4, v5, e5, v6, e6, v7, e7, v8, e8, v9, e9,
    v10, e10, v11, e11, v12, e12, v13, e13, v14, e14, v15, e15, h⟩ := h
  split at h
  all_goals simp only [exceptBind_ok_iff] at h
  all_goals first
    | (obtain ⟨u, eu, slug, es, fi, e16, h⟩ := h
       cases h
       exact ⟨rfl, compose_arrival_not_lt _ _ _ e4⟩)
    | (obtain ⟨fi, e16, h⟩ := h
       cases h
       exact ⟨rfl, compose_arrival_not_lt _ _ _ e4⟩)

theorem parseBatch_eq_filterMap (ap : String) (entries : List Json) :
    parseBatch ap entries =
      entries.filterMap (fun e =>
        if e.isObj then (parse_flight_record e ap).toOption else none) := by
  induction entries with
  | nil => simp [parseBatch]
  | cons e rest ih =>
      simp only [parseBatch, List.filterMap_cons]
      by_cases he : e.isObj
      · simp only [he, if_true]
        cases hp : parse_flight_record e ap <;> simp [Except.toOption, ih]
      · simp [he, ih]

theorem mem_parseBatch (ap : String) (entries : List Json) (r : FlightRecord)
    (h : r ∈ parseBatch ap entries) : ∃ e, parse_flight_record e ap = .ok r := by
  induction entries with
  | nil => simp [parseBatch] at h
  | cons e rest ih =>
      simp only [parseBatch] at h
      by_cases he : e.isObj
      · simp only [he, if_true] at h
        cases hp : parse_flight_record e ap with
        | ok v =>
            rw [hp] at h
            rcases List.mem_cons.mp h with h1 | h2
            · exact ⟨e, by rw [hp, h1]⟩
            · exact ih h2
        | error err => rw [hp] at h; exact ih h
      · simp only [he, if_false] at h
        exact ih h

theorem exceptBind_error_iff {e : Type} {a : Type} {b : Type} (x : Except e a)
    (f : a → Except e b) (err : e) :
    (Except.bind x f = .error err) ↔
      (x = .error err ∨ ∃ w, x = .ok w ∧ f w = .error err) := by
  cases x <;> simp [Except.bind]

theorem getItem_error (j : Json) (k : String) (e : PyErr)
    (h : j.getItem k = .error e) :
    (∃ s, e = .keyError s) ∨ (∃ s, e = .typeError s) := by
  unfold Json.getItem at h
  repeat split at h
  all_goals cases h
  · exact Or.inl ⟨_, rfl⟩
  · exact Or.inr ⟨_, rfl⟩

theorem fromisoformat_error (cs : List Char) (e : PyErr)
    (h : fromisoformat cs = .error e) : ∃ s, e = .valueError s := by
  unfold fromisoformat at h
  split at h
  · split at h
    · split at h
      · simp only [] at h
        split at h
        · cases h
        · cases h; exact ⟨_, rfl⟩
      · cases h; exact ⟨_, rfl⟩
    · cases h; exact ⟨_, rfl⟩
  · cases h; exact ⟨_, rfl⟩

theorem fromisoformatValue_error (v : Json) (e : PyErr)
    (h : fromisoformatValue v = .error e) :
    (∃ s, e = .valueError s) ∨ (∃ s, e = .typeError s) := by
  unfold fromisoformatValue at h
  split at h
  · exact Or.inl (fromisoformat_error _ _ h)
  · cases h; exact Or.inr ⟨_, rfl⟩

theorem getItem_error3 (j : Json) (k : String) (e : PyErr)
    (h : j.getItem k = .error e) :
    (∃ s, e = .keyError s) ∨ (∃ s, e = .valueError s) ∨ (∃ s, e = .typeError s) := by
  rcases getItem_error j k e h with hk | ht
  exacts [Or.inl hk, Or.inr (Or.inr ht)]

theorem fromisoformatValue_error3 (v : Json) (e : PyErr)
    (h : fromisoformatValue v = .error e) :
    (∃ s, e = .keyError s) ∨ (∃ s, e = .valueError s) ∨ (∃ s, e = .typeError s) := by
  rcases fromisoformatValue_error v e h with hv | ht
  exacts [Or.inr (Or.inl hv), Or.inr (Or.inr ht)]

theorem record_from_dict_error (d : Json) (e : PyErr)
    (h : record_from_dict d = .error e) :
    (∃ s, e = .keyError s) ∨ (∃ s, e = .valueError s) ∨ (∃ s, e = .typeError s) := by
  simp only [record_from_dict, bind, exceptBind_error_iff, pure, Except.pure] at h
  rcases h with h | ⟨v1, _, h | ⟨v2, _, h | ⟨v3, _, h | ⟨v4, _, h | ⟨v5, _,
    h | ⟨v6, _, h | ⟨v7, _, h | ⟨v8, _, h⟩⟩⟩⟩⟩⟩⟩⟩
  exacts [getItem_error3 _ _ _ h, getItem_error3 _ _ _ h, fromisoformatValue_error3 _ _ h,
    getItem_error3 _ _ _ h, getItem_error3 _ _ _ h, fromisoformatValue_error3 _ _ h,
    getItem_error3 _ _ _ h, getItem_error3 _ _ _ h, Except.noConfusion h]

theorem loadItems_error (items : List Json) (e : PyErr)
    (h : loadItems items = .error e) : ∃ s, e = .typeError s := by
  induction items with
  | nil => cases h
  | cons item rest ih =>
      simp only [loadItems] at h
      split at h
      · split at h
        · simp only [bind, exceptBind_error_iff, pure, Except.pure] at h
          rcases h with h | ⟨rs, _, h⟩
          · exact ih h
          · cases h
        · exact ih h
        · exact ih h
        · next hnk hnv heq =>
            cases h
            rcases record_from_dict_error _ _ heq with ⟨s, rfl⟩ | ⟨s, rfl⟩ | ⟨s, rfl⟩
            · exact (hnk s rfl).elim
            · exact (hnv s rfl).elim
            · exact ⟨s, rfl⟩
      · exact ih h

theorem loadItems_all_dropped (items : List Json)
    (h : ∀ i ∈ items, i.isObj = false ∨ (∃ s, record_from_dict i = .error (.keyError s)) ∨
      (∃ s, record_from_dict i = .error (.valueError s))) :
    loadItems items = .ok [] := by
  induction items with
  | nil => rfl
  | cons item rest ih =>
      have hi := h item (by simp)
      have hr : loadItems rest = .ok [] := ih (fun i hmem => h i (by simp [hmem]))
      simp only [loadItems]
      rcases hi with hno | ⟨s, hk⟩ | ⟨s, hv⟩
      · simp [hno, hr]
      · by_cases ho : item.isObj <;> simp [ho, hk, hr]
      · by_cases ho : item.isObj <;> simp [ho, hv, hr]

theorem walk_path_append (j : Json) (p q : List String) :
    walk_path j (p ++ q) = Except.bind (walk_path j p) (fun v => walk_path v q) := by
  induction p generalizing j with
  | nil => simp [walk_path, Except.bind]
  | cons s rest ih =>
      simp only [List.cons_append, walk_path]
      cases j.lookup? s <;> simp [Except.bind, ih]

theorem loadItems_map_record_to_dict (flights : List FlightRecord)
    (hvalid : ∀ r ∈ flights, r.departure_time.Valid ∧ r.arrival_time.Valid) :
    loadItems (flights.map record_to_dict) = .ok flights := by
  induction flights with
  | nil => rfl
  | cons r rest ih =>
      have hr := hvalid r (by simp)
      have hrest := ih (fun x hx => hvalid x (by simp [hx]))
      have hobj : (record_to_dict r).isObj = true := rfl
      simp only [List.map_cons, loadItems, hobj, if_true,
        record_round_trip r hr.1 hr.2, hrest, bind, Except.bind, pure, Except.pure]

theorem load_from_cache_error (f : FileState) (e : PyErr)
    (h : load_from_cache f = .error e) :
    (∃ s, e = .typeError s) ∨ (∃ s, e = .unicodeDecodeError s) := by
  cases f <;> simp only [load_from_cache] at h
  case missing => cases h
  case ioError => cases h
  case badEncoding => cases h; exact Or.inr ⟨_, rfl⟩
  case badJson => cases h
  case good j =>
    cases j <;> simp only [load_from_cache] at h
    all_goals try (cases h)
    next items =>
      cases hli : loadItems items with
      | ok v => rw [hli] at h; cases h
      | error e2 =>
          rw [hli] at h
          cases h
          exact Or.inl (loadItems_error _ _ hli)

/-! ### Claim theorems -/

/-- C7: serialising a FlightRecord to the cache representation (all seven
fields, timestamps as ISO-formatted strings) and deserialising that
representation back yields a record equal to the original, timestamps equal to
microsecond precision; the two hypotheses are the field-range invariant every
Python datetime object carries by construction. -/
theorem c7_cache_round_trip (r : FlightRecord) (hd : r.departure_time.Valid)
    (ha : r.arrival_time.Valid) : record_from_dict (record_to_dict r) = .ok r :=
  record_round_trip r hd ha

theorem c7_witness :
    (Datetime.Valid ⟨2024, 5, 6, 7, 8, 9, 123456⟩ ∧ Datetime.Valid ⟨2024, 5, 7, 0, 15, 0, 0⟩) ∧
    record_from_dict (record_to_dict ⟨.str "JFK", ⟨2024, 5, 6, 7, 8, 9, 123456⟩,
      .str "Los Angeles", ⟨2024, 5, 7, 0, 15, 0, 0⟩, .str "American", .str "AA 100", .num 42⟩) =
      .ok ⟨.str "JFK", ⟨2024, 5, 6, 7, 8, 9, 123456⟩, .str "Los Angeles",
        ⟨2024, 5, 7, 0, 15, 0, 0⟩, .str "American", .str "AA 100", .num 42⟩ :=
  ⟨⟨by decide, by decide⟩, c7_cache_round_trip _ (by decide) (by decide)⟩

/-- C8: every record the per-entry parser accepts satisfies
arrival_time >= departure_time: the default branch copies the departure time,
and the rollover branch moves the arrival to a strictly later date. -/
theorem c8_arrival_not_before_departure (raw : Json) (airport : String)
    (r : FlightRecord) (h : parse_flight_record raw airport = .ok r) :
    r.arrival_time.ltb r.departure_time = false :=
  (parse_flight_record_ok raw airport r h).2

theorem c8_witness :
    parse_flight_record (.obj [("sortTime", .str "2024-05-06T23:50:00"),
        ("arrivalTime", .obj [("time24", .str "00:15")])]) "JFK" =
      .ok ⟨.str "JFK", ⟨2024, 5, 6, 23, 50, 0, 0⟩, .str "", ⟨2024, 5, 7, 0, 15, 0, 0⟩,
        .str "", .str "Unknown", .null⟩ ∧
    Datetime.ltb ⟨2024, 5, 7, 0, 15, 0, 0⟩ ⟨2024, 5, 6, 23, 50, 0, 0⟩ = false :=
  ⟨by decide,
   c8_arrival_not_before_departure
     (.obj [("sortTime", .str "2024-05-06T23:50:00"),
       ("arrivalTime", .obj [("time24", .str "00:15")])]) "JFK"
     ⟨.str "JFK", ⟨2024, 5, 6, 23, 50, 0, 0⟩, .str "", ⟨2024, 5, 7, 0, 15, 0, 0⟩,
       .str "", .str "Unknown", .null⟩ (by decide)⟩

/-- C6: the batch parser never raises — non-dict entries are skipped before
parsing, any single failing entry is skipped silently, and the result is
exactly the records of the entries that parse; in particular a list of one
entry missing sortTime and two well-formed entries yields exactly two
records. -/
theorem c6_batch_skip_policy (airport : String) (entries : List Json) :
    parseBatch airport entries =
      entries.filterMap (fun e =>
        if e.isObj then (parse_flight_record e airport).toOption else none) ∧
    (parseBatch "JFK" [.obj [("airport", .obj [("city", .str "Boston")])],
        .obj [("sortTime", .str "2024-05-06T07:08:09")],
        .obj [("sortTime", .str "2024-05-06T10:00:00Z")]]).length = 2 :=
  ⟨parseBatch_eq_filterMap airport entries, by decide⟩

/-- C9: a cache file that parses as a JSON list all of whose elements are
dropped (non-dicts, or key/value errors during reconstruction) is a cache hit
returning the empty list with no upstream fetch; only an unreadable file, a
non-JSON file, or a non-list top level is a full cache miss. -/
theorem c9_empty_after_drops_is_hit (airport : String) (y mo d h : Int)
    (items : List Json) (httpR : Except PyErr String)
    (loads : String → Except PyErr Json) (storeOk : Bool)
    (hdrop : ∀ i ∈ items, i.isObj = false ∨
      (∃ s, record_from_dict i = .error (.keyError s)) ∨
      (∃ s, record_from_dict i = .error (.valueError s))) :
    fetch_departures airport y mo d h true (.good (.arr items)) httpR loads storeOk =
      (.ok [], .good (.arr items), false) ∧
    load_from_cache .ioError = .ok none ∧ load_from_cache .badJson = .ok none ∧
    (∀ j : Json, j.isArr = false → load_from_cache (.good j) = .ok none) := by
  have hl : load_from_cache (.good (.arr items)) = .ok (some []) := by
    simp [load_from_cache, loadItems_all_dropped items hdrop, Except.map]
  refine ⟨?_, rfl, rfl, ?_⟩
  · unfold fetch_departures
    simp [FileState.existsb, hl]
  · intro j hj
    cases j <;> simp_all [load_from_cache, Json.isArr]

theorem c9_witness :
    (∀ i ∈ ([.num 7, .obj [("departure_airport", .str "JFK")]] : List Json),
      i.isObj = false ∨ (∃ s, record_from_dict i = .error (.keyError s)) ∨
      (∃ s, record_from_dict i = .error (.valueError s))) ∧
    fetch_departures "JFK" 2024 5 6 7 true
      (.good (.arr [.num 7, .obj [("departure_airport", .str "JFK")]]))
      (.error (.runtimeError "network down")) (fun _ => .error (.jsonDecodeError "bad")) true =
      (.ok [], .good (.arr [.num 7, .obj [("departure_airport", .str "JFK")]]), false) := by
  have hdrop : ∀ i ∈ ([.num 7, .obj [("departure_airport", .str "JFK")]] : List Json),
      i.isObj = false ∨ (∃ s, record_from_dict i = .error (.keyError s)) ∨
      (∃ s, record_from_dict i = .error (.valueError s)) := by
    intro i hi
    rcases List.mem_cons.mp hi with rfl | hi2
    · exact Or.inl (by decide)
    · rcases List.mem_cons.mp hi2 with rfl | hi3
      · exact Or.inr (Or.inl ⟨"departure_time", by decide⟩)
      · cases hi3
  exact ⟨hdrop, (c9_empty_after_drops_is_hit "JFK" 2024 5 6 7 _
    (.error (.runtimeError "network down")) (fun _ => .error (.jsonDecodeError "bad")) true hdrop).1⟩

/-- C10: freshly fetched records embed the airport code exactly as supplied
(untrimmed, original case), while the cache filename is built from the
trimmed, uppercased code with empty falling back to UNKNOWN — so codes that
normalise alike share one cache file. -/
theorem c10_raw_code_in_records (airport a b : String) (entries : List Json)
    (r : FlightRecord) (y mo d h : Int) :
    (r ∈ parseBatch airport entries → r.departure_airport = .str airport) ∧
    ((trimChars a.data).map Char.toUpper = (trimChars b.data).map Char.toUpper →
      cache_file a y mo d h = cache_file b y mo d h) ∧
    cache_file "" y mo d h = cache_file "UNKNOWN" y mo d h := by
  refine ⟨fun hmem => ?_, fun hab => ?_, ?_⟩
  · obtain ⟨e, he⟩ := mem_parseBatch airport entries r hmem
    exact (parse_flight_record_ok e airport r he).1
  · unfold cache_file sanitizeAirport
    rw [hab]
  · unfold cache_file
    rw [show sanitizeAirport "" = sanitizeAirport "UNKNOWN" from by decide]

theorem c10_witness :
    ((⟨.str "jFk ", ⟨2024, 5, 6, 7, 8, 9, 0⟩, .str "", ⟨2024, 5, 6, 7, 8, 9, 0⟩, .str "",
        .str "Unknown", .null⟩ : FlightRecord) ∈
        parseBatch "jFk " [.obj [("sortTime", .str "2024-05-06T07:08:09")]] ∧
      (⟨.str "jFk ", ⟨2024, 5, 6, 7, 8, 9, 0⟩, .str "", ⟨2024, 5, 6, 7, 8, 9, 0⟩, .str "",
        .str "Unknown", .null⟩ : FlightRecord).departure_airport = .str "jFk ") ∧
    ((trimChars "jFk ".data).map Char.toUpper = (trimChars "JFK".data).map Char.toUpper ∧
      cache_file "jFk " 2024 5 6 7 = cache_file "JFK" 2024 5 6 7) :=
  ⟨⟨by decide,
    (c10_raw_code_in_records "jFk " "x" "y" [.obj [("sortTime", .str "2024-05-06T07:08:09")]]
      ⟨.str "jFk ", ⟨2024, 5, 6, 7, 8, 9, 0⟩, .str "", ⟨2024, 5, 6, 7, 8, 9, 0⟩, .str "",
        .str "Unknown", .null⟩ 2024 5 6 7).1 (by decide)⟩,
   ⟨by decide,
    (c10_raw_code_in_records "unused" "jFk " "JFK" [] ⟨.null, ⟨1, 1, 1, 0, 0, 0, 0⟩, .null,
      ⟨1, 1, 1, 0, 0, 0, 0⟩, .null, .null, .null⟩ 2024 5 6 7).2.1 (by decide)⟩⟩

/-- C5: extraction fails with the payload-not-found ValueError when the marker
pattern has no match; a loads failure on the matched span propagates
unmodified; a walk of the five-segment path fails with a KeyError naming the
first absent segment; and a non-list flights value is a TypeError. -/
theorem c5_extraction_error_taxonomy :
    (∀ (loads : String → Except PyErr Json) (html : String),
      searchNextData html.data = none →
      extract_next_data loads html =
        .error (.valueError "Could not locate FlightStats payload in response HTML.")) ∧
    (∀ (loads : String → Except PyErr Json) (html : String) (span : List Char) (e : PyErr),
      searchNextData html.data = some span → loads (String.mk span) = .error e →
      extract_next_data loads html = .error e) ∧
    (∀ (root v : Json) (pre : List String) (seg : String) (post : List String),
      walk_path root pre = .ok v → v.lookup? seg = none →
      walk_path root (pre ++ seg :: post) =
        .error (.keyError ("Missing segment \x27" ++ seg ++
          "\x27 while traversing Next.js payload"))) ∧
    (∀ (y mo d h : Int) (airport html : String) (loads : String → Except PyErr Json)
      (payload v : Json),
      validate_query mo d h = .ok () →
      extract_next_data loads html = .ok payload →
      walk_path payload flightsPath = .ok v → v.isArr = false →
      fetch_flightstats_departures y mo d h airport (.ok html) loads =
        .error (.typeError "Unexpected flights payload returned by FlightStats")) := by
  refine ⟨fun loads html hs => ?_, fun loads html span e hs hl => ?_,
    fun root v pre seg post hw hn => ?_, fun y mo d h airport html loads payload v hv he hw ha => ?_⟩
  · unfold extract_next_data
    rw [hs]
  · unfold extract_next_data
    rw [hs]
    exact hl
  · rw [walk_path_append, hw]
    simp [Except.bind, walk_path, hn]
  · unfold fetch_flightstats_departures
    simp only [hv, he, hw, bind, Except.bind]
    cases v <;> simp_all [Json.isArr]

theorem c5_witness :
    (searchNextData "no marker".data = none ∧
      extract_next_data (fun _ => .ok .null) "no marker" =
        .error (.valueError "Could not locate FlightStats payload in response HTML.")) ∧
    (searchNextData "__NEXT_DATA__=\x7bbad\x7d;__NEXT_LOADED_PAGES__".data =
        some "\x7bbad\x7d".data ∧
      (fun _ => (.error (.jsonDecodeError "Expecting value") : Except PyErr Json))
          (String.mk "\x7bbad\x7d".data) = .error (.jsonDecodeError "Expecting value") ∧
      extract_next_data (fun _ => .error (.jsonDecodeError "Expecting value"))
        "__NEXT_DATA__=\x7bbad\x7d;__NEXT_LOADED_PAGES__" =
        .error (.jsonDecodeError "Expecting value")) ∧
    (walk_path (.obj [("props", .obj [("initialState", .obj [])])]) ["props", "initialState"] =
        .ok (.obj []) ∧
      (Json.obj []).lookup? "flightTracker" = none ∧
      walk_path (.obj [("props", .obj [("initialState", .obj [])])])
        (["props", "initialState"] ++ "flightTracker" :: ["route", "flights"]) =
        .error (.keyError ("Missing segment \x27flightTracker\x27 while traversing Next.js payload"))) ∧
    fetch_flightstats_departures 2024 5 6 7 "JFK"
      (.ok "__NEXT_DATA__=\x7b\x7d;__NEXT_LOADED_PAGES__")
      (fun _ => .ok (.obj [("props", .obj [("initialState", .obj [("flightTracker",
        .obj [("route", .obj [("flights", .num 3)])])])])])) =
      .error (.typeError "Unexpected flights payload returned by FlightStats") := by
  refine ⟨⟨by decide, c5_extraction_error_taxonomy.1 (fun _ => .ok .null) "no marker" (by decide)⟩,
    ⟨by decide, by decide,
      c5_extraction_error_taxonomy.2.1 (fun _ => .error (.jsonDecodeError "Expecting value"))
        "__NEXT_DATA__=\x7bbad\x7d;__NEXT_LOADED_PAGES__" ("\x7bbad\x7d".data)
        (.jsonDecodeError "Expecting value") (by decide) (by decide)⟩,
    ⟨by decide, by decide,
      c5_extraction_error_taxonomy.2.2.1 (.obj [("props", .obj [("initialState", .obj [])])])
        (.obj []) ["props", "initialState"] "flightTracker" ["route", "flights"]
        (by decide) (by decide)⟩,
    c5_extraction_error_taxonomy.2.2.2 2024 5 6 7 "JFK" _ _
      (.obj [("props", .obj [("initialState", .obj [("flightTracker",
        .obj [("route", .obj [("flights", .num 3)])])])])]) (.num 3)
      (by decide) (by decide) (by decide) (by decide)⟩

/-- C2: with use_cache true, a first call on a missing cache file fetches once
(flag true), returns the fetched records, and writes their serialisation; an
immediate second call with the same key reads that file, returns an equal
list, and does not invoke the fetch pipeline (flag false) — whatever the
network would do on the second call. -/
theorem c2_cache_idempotence (airport : String) (y mo d h : Int)
    (httpR httpR2 : Except PyErr String) (loads loads2 : String → Except PyErr Json)
    (flights : List FlightRecord)
    (hfetch : fetch_flightstats_departures y mo d h airport httpR loads = .ok flights)
    (hvalid : ∀ r ∈ flights, r.departure_time.Valid ∧ r.arrival_time.Valid) :
    fetch_departures airport y mo d h true .missing httpR loads true =
      (.ok flights, .good (.arr (flights.map record_to_dict)), true) ∧
    fetch_departures airport y mo d h true (.good (.arr (flights.map record_to_dict)))
        httpR2 loads2 true =
      (.ok flights, .good (.arr (flights.map record_to_dict)), false) := by
  have hload : load_from_cache (.good (.arr (flights.map record_to_dict))) =
      .ok (some flights) := by
    simp [load_from_cache, loadItems_map_record_to_dict flights hvalid, Except.map]
  constructor
  · unfold fetch_departures
    simp [FileState.existsb, hfetch]
  · unfold fetch_departures
    simp [FileState.existsb, hload]

/-- A concrete well-formed record used to witness the cache idempotence claim. -/
def rec1 : FlightRecord :=
  ⟨.str "JFK", ⟨2024, 5, 6, 7, 8, 9, 0⟩, .str "", ⟨2024, 5, 6, 7, 8, 9, 0⟩, .str "",
    .str "Unknown", .null⟩

/-- A concrete loads outcome whose payload holds one parsable flight entry. -/
def goodLoads : String → Except PyErr Json := fun _ =>
  .ok (.obj [("props", .obj [("initialState", .obj [("flightTracker",
    .obj [("route", .obj [("flights", .arr [.obj [("sortTime",
      .str "2024-05-06T07:08:09")]])])])])])])

theorem c2_witness :
    fetch_flightstats_departures 2024 5 6 7 "JFK"
        (.ok "__NEXT_DATA__=\x7b\x7d;__NEXT_LOADED_PAGES__") goodLoads = .ok [rec1] ∧
    (∀ r ∈ [rec1], r.departure_time.Valid ∧ r.arrival_time.Valid) ∧
    fetch_departures "JFK" 2024 5 6 7 true .missing
        (.ok "__NEXT_DATA__=\x7b\x7d;__NEXT_LOADED_PAGES__") goodLoads true =
      (.ok [rec1], .good (.arr ([rec1].map record_to_dict)), true) ∧
    fetch_departures "JFK" 2024 5 6 7 true (.good (.arr ([rec1].map record_to_dict)))
        (.error (.runtimeError "network down")) (fun _ => .error (.jsonDecodeError "bad")) true =
      (.ok [rec1], .good (.arr ([rec1].map record_to_dict)), false) := by
  have h := c2_cache_idempotence "JFK" 2024 5 6 7
    (.ok "__NEXT_DATA__=\x7b\x7d;__NEXT_LOADED_PAGES__") (.error (.runtimeError "network down"))
    goodLoads (fun _ => .error (.jsonDecodeError "bad")) [rec1] (by decide)
    (by decide)
  exact ⟨by decide, by decide, h.1, h.2⟩

/-- The cache-file state used in the C1 analysis: a JSON list with one entry
whose timestamp field holds a number instead of a string. -/
def fileC1 : FileState :=
  .good (.arr [.obj [("departure_airport", .str "JFK"), ("departure_time", .num 5),
    ("arrival_city", .str "X"), ("arrival_time", .str "2024-01-01T00:00:00"),
    ("airline", .str "A"), ("flight_number", .str "B"),
    ("estimated_passengers", .null)]])

/-- C1 counterexample: a cache entry whose departure_time is the number 5
makes datetime.fromisoformat raise TypeError, which neither except clause in
_load_from_cache catches, so fetch_departures raises an error that originates
from cache reading — refuting the claim that such entries are merely
dropped. -/
theorem c1_counterexample :
    fetch_departures "JFK" 2024 1 1 0 true fileC1
      (.error (.runtimeError "network down")) (fun _ => .error (.jsonDecodeError "bad")) true =
      (.error (.typeError "fromisoformat: argument must be str"), fileC1, false) := by decide

/-- C1 (amended): every error escaping fetch_departures is either a
fetch-pipeline error propagated unmodified or one of the two cache-read
escapes — a TypeError from an entry whose timestamp field is present but not
a string, or a UnicodeDecodeError from a cache file that is not valid UTF-8;
key/value reconstruction errors drop the entry, unreadable/non-JSON/non-list
files are cache misses, and persistence failure never changes the returned
value. -/
theorem c1_cache_error_containment (airport : String) (y mo d h : Int)
    (use_cache : Bool) (file : FileState) (httpR : Except PyErr String)
    (loads : String → Except PyErr Json) (storeOk : Bool) :
    (∀ (e : PyErr) (fs2 : FileState) (flag : Bool),
      fetch_departures airport y mo d h use_cache file httpR loads storeOk =
        (.error e, fs2, flag) →
      fetch_flightstats_departures y mo d h airport httpR loads = .error e ∨
      (load_from_cache file = .error e ∧
        ((∃ s, e = .typeError s) ∨ (∃ s, e = .unicodeDecodeError s)))) ∧
    (fetch_departures airport y mo d h use_cache file httpR loads false).1 =
      (fetch_departures airport y mo d h use_cache file httpR loads true).1 := by
  constructor
  · intro e fs2 flag he
    unfold fetch_departures at he
    simp only [] at he
    split at he
    · split at he
      · next e2 heq =>
          simp only [Prod.mk.injEq] at he
          obtain ⟨he1, _, _⟩ := he
          cases he1
          exact Or.inr ⟨heq, load_from_cache_error _ _ heq⟩
      · simp at he
      · split at he
        · next e2 heq =>
            simp only [Prod.mk.injEq] at he
            obtain ⟨he1, _, _⟩ := he
            cases he1
            exact Or.inl heq
        · simp at he
    · split at he
      · next e2 heq =>
          simp only [Prod.mk.injEq] at he
          obtain ⟨he1, _, _⟩ := he
          cases he1
          exact Or.inl heq
      · simp at he
  · unfold fetch_departures
    by_cases hc : (use_cache && file.existsb) = true
    · simp only [hc, if_true]
      cases hl : load_from_cache file with
      | error e => simp
      | ok v =>
          cases v with
          | some records => simp
          | none =>
              simp only []
              cases hf : fetch_flightstats_departures y mo d h airport httpR loads <;> simp
    · simp only [hc, if_false]
      cases hf : fetch_flightstats_departures y mo d h airport httpR loads <;> simp

theorem c1_witness :
    (fetch_departures "JFK" 2024 1 1 0 true fileC1
        (.error (.runtimeError "network down")) (fun _ => .error (.jsonDecodeError "bad")) true =
      (.error (.typeError "fromisoformat: argument must be str"), fileC1, false) ∧
    (fetch_flightstats_departures 2024 1 1 0 "JFK" (.error (.runtimeError "network down"))
        (fun _ => .error (.jsonDecodeError "bad")) =
        .error (.typeError "fromisoformat: argument must be str") ∨
      (load_from_cache fileC1 = .error (.typeError "fromisoformat: argument must be str") ∧
        ((∃ s, (PyErr.typeError "fromisoformat: argument must be str") = .typeError s) ∨
          (∃ s, (PyErr.typeError "fromisoformat: argument must be str") =
            .unicodeDecodeError s))))) ∧
    (fetch_departures "JFK" 2024 1 1 0 true .badEncoding
        (.error (.runtimeError "network down")) (fun _ => .error (.jsonDecodeError "bad")) true =
      (.error (.unicodeDecodeError "invalid continuation byte"), .badEncoding, false) ∧
    (fetch_flightstats_departures 2024 1 1 0 "JFK" (.error (.runtimeError "network down"))
        (fun _ => .error (.jsonDecodeError "bad")) =
        .error (.unicodeDecodeError "invalid continuation byte") ∨
      (load_from_cache .badEncoding = .error (.unicodeDecodeError "invalid continuation byte") ∧
        ((∃ s, (PyErr.unicodeDecodeError "invalid continuation byte") = .typeError s) ∨
          (∃ s, (PyErr.unicodeDecodeError "invalid continuation byte") =
            .unicodeDecodeError s))))) :=
  ⟨⟨by decide,
    (c1_cache_error_containment "JFK" 2024 1 1 0 true fileC1
       (.error (.runtimeError "network down")) (fun _ => .error (.jsonDecodeError "bad")) true).1
      (.typeError "fromisoformat: argument must be str") fileC1 false (by decide)⟩,
   ⟨by decide,
    (c1_cache_error_containment "JFK" 2024 1 1 0 true .badEncoding
       (.error (.runtimeError "network down")) (fun _ => .error (.jsonDecodeError "bad")) true).1
      (.unicodeDecodeError "invalid continuation byte") .badEncoding false (by decide)⟩⟩

/-- C3 counterexample: hour 25 is out of range, yet with use_cache true and an
existing readable cache file fetch_departures returns the cached records and
raises no validation error at all — the cache is consulted before validation,
so validation does not precede cache-file access. -/
theorem c3_counterexample :
    validate_query 1 1 25 = .error (.valueError "hour must be between 0 and 23") ∧
    fetch_departures "JFK" 2024 1 1 25 true (.good (.arr []))
      (.error (.runtimeError "network down")) (fun _ => .error (.jsonDecodeError "bad")) true =
      (.ok [], .good (.arr []), false) := by decide

/-- C3 (amended): month in 1..12, day in 1..31, hour in 0..23 pass validation;
any out-of-range component makes fetch_flightstats_departures fail with the
validation ValueError before the network outcome is consulted, and makes
fetch_departures fail the same way whenever the cache does not intervene
(caching disabled, no file, or a file that loads as a miss).  The cache is
consulted before validation, so an existing loadable cache file returns the
cached records with no validation at all, and a cache file whose load raises
propagates that load error instead of the validation error. -/
theorem c3_validation_before_network (y mo d h : Int) (airport : String)
    (httpR : Except PyErr String) (loads : String → Except PyErr Json) :
    ((1 ≤ mo ∧ mo ≤ 12) ∧ (1 ≤ d ∧ d ≤ 31) ∧ (0 ≤ h ∧ h ≤ 23) →
      validate_query mo d h = .ok ()) ∧
    (¬((1 ≤ mo ∧ mo ≤ 12) ∧ (1 ≤ d ∧ d ≤ 31) ∧ (0 ≤ h ∧ h ≤ 23)) →
      ∃ msg, validate_query mo d h = .error (.valueError msg) ∧
        fetch_flightstats_departures y mo d h airport httpR loads =
          .error (.valueError msg)) ∧
    (∀ (file : FileState) (storeOk : Bool) (records : List FlightRecord),
      file.existsb = true → load_from_cache file = .ok (some records) →
      fetch_departures airport y mo d h true file httpR loads storeOk =
        (.ok records, file, false)) ∧
    (∀ (use_cache : Bool) (file : FileState) (storeOk : Bool),
      ¬((1 ≤ mo ∧ mo ≤ 12) ∧ (1 ≤ d ∧ d ≤ 31) ∧ (0 ≤ h ∧ h ≤ 23)) →
      (use_cache = false ∨ file.existsb = false ∨ load_from_cache file = .ok none) →
      ∃ msg, validate_query mo d h = .error (.valueError msg) ∧
        fetch_departures airport y mo d h use_cache file httpR loads storeOk =
          (.error (.valueError msg), file, true)) ∧
    (∀ (file : FileState) (storeOk : Bool) (e : PyErr),
      file.existsb = true → load_from_cache file = .error e →
      fetch_departures airport y mo d h true file httpR loads storeOk =
        (.error e, file, false)) := by
  have hvalid : (1 ≤ mo ∧ mo ≤ 12) ∧ (1 ≤ d ∧ d ≤ 31) ∧ (0 ≤ h ∧ h ≤ 23) →
      validate_query mo d h = .ok () := by
    intro hv
    unfold validate_query
    split_ifs with h1 h2 h3
    · rfl
    · exact absurd hv.2.2 h3
    · exact absurd hv.2.1 h2
    · exact absurd hv.1 h1
  have hpipe : ∀ msg, validate_query mo d h = .error (.valueError msg) →
      fetch_flightstats_departures y mo d h airport httpR loads =
        .error (.valueError msg) := by
    intro msg hval
    unfold fetch_flightstats_departures
    simp [hval, bind, Except.bind]
  have hmain : ¬((1 ≤ mo ∧ mo ≤ 12) ∧ (1 ≤ d ∧ d ≤ 31) ∧ (0 ≤ h ∧ h ≤ 23)) →
      ∃ msg, validate_query mo d h = .error (.valueError msg) ∧
        fetch_flightstats_departures y mo d h airport httpR loads =
          .error (.valueError msg) := by
    intro hnv
    by_cases h1 : 1 ≤ mo ∧ mo ≤ 12
    · by_cases h2 : 1 ≤ d ∧ d ≤ 31
      · by_cases h3 : 0 ≤ h ∧ h ≤ 23
        · exact absurd ⟨h1, h2, h3⟩ hnv
        · exact ⟨"hour must be between 0 and 23", by simp [validate_query, h1, h2, h3],
            hpipe _ (by simp [validate_query, h1, h2, h3])⟩
      · exact ⟨"day must be between 1 and 31", by simp [validate_query, h1, h2],
          hpipe _ (by simp [validate_query, h1, h2])⟩
    · exact ⟨"month must be between 1 and 12", by simp [validate_query, h1],
        hpipe _ (by simp [validate_query, h1])⟩
  refine ⟨hvalid, hmain, fun file storeOk records hex hl => ?_,
    fun use_cache file storeOk hnv hskip => ?_, fun file storeOk e hex hl => ?_⟩
  · unfold fetch_departures
    simp [hex, hl]
  · obtain ⟨msg, hval, hfs⟩ := hmain hnv
    refine ⟨msg, hval, ?_⟩
    unfold fetch_departures
    rcases hskip with hu | hex | hmiss
    · subst hu
      simp [hfs]
    · simp [hex, hfs]
    · cases hcb : (use_cache && file.existsb) <;> simp [hcb, hmiss, hfs]
  · unfold fetch_departures
    simp [hex, hl]

theorem c3_witness :
    (¬(((1 : Int) ≤ 13 ∧ (13 : Int) ≤ 12) ∧ ((1 : Int) ≤ 1 ∧ (1 : Int) ≤ 31) ∧
        ((0 : Int) ≤ 0 ∧ (0 : Int) ≤ 23))) ∧
    (∃ msg, validate_query 13 1 0 = .error (.valueError msg) ∧
      fetch_flightstats_departures 2024 13 1 0 "JFK" (.error (.runtimeError "network down"))
        (fun _ => .error (.jsonDecodeError "bad")) = .error (.valueError msg)) ∧
    (∃ msg, validate_query 13 1 0 = .error (.valueError msg) ∧
      fetch_departures "JFK" 2024 13 1 0 true .missing (.error (.runtimeError "network down"))
        (fun _ => .error (.jsonDecodeError "bad")) true =
        (.error (.valueError msg), .missing, true)) :=
  ⟨by decide,
   (c3_validation_before_network 2024 13 1 0 "JFK" (.error (.runtimeError "network down"))
      (fun _ => .error (.jsonDecodeError "bad"))).2.1 (by decide),
   (c3_validation_before_network 2024 13 1 0 "JFK" (.error (.runtimeError "network down"))
      (fun _ => .error (.jsonDecodeError "bad"))).2.2.2.1 true .missing true (by decide)
     (Or.inr (Or.inl (by decide)))⟩

/-- C4 counterexample: time24 "99:99" is not a well-formed HH:MM time, yet the
code does not default the arrival to the departure time — the int parses
succeed and replace raises ValueError — refuting the claim that every
malformed time24 yields arrival = departure. -/
theorem c4_counterexample :
    compose_arrival_datetime ⟨2024, 5, 6, 23, 50, 0, 0⟩ (.obj [("time24", .str "99:99")]) =
      .error (.valueError "hour must be in 0..23") ∧
    compose_arrival_datetime ⟨2024, 5, 6, 23, 50, 0, 0⟩ (.obj [("time24", .str "99:99")]) ≠
      .ok ⟨2024, 5, 6, 23, 50, 0, 0⟩ := by decide

theorem compose_arrival_parsefail (d : Datetime) (ms : List (String × Json)) (s : String)
    (p0 p1 : List Char) (rest : List (List Char))
    (hs : (ms.lookup "time24").getD .null = .str s) (hc : s.data.elem ':' = true)
    (hsplit : splitOnChar ':' s.data = p0 :: p1 :: rest)
    (hfail : pyInt (String.mk p0) = none ∨ pyInt (String.mk p1) = none) :
    compose_arrival_datetime d (.obj ms) = .ok d := by
  simp only [compose_arrival_datetime]
  rw [hs]
  simp only [hc, if_true]
  rw [hsplit]
  dsimp only
  rcases hfail with hf | hf
  · rw [hf]
  · rw [hf]
    cases pyInt (String.mk p0) <;> rfl

theorem compose_arrival_inrange (d : Datetime) (ms : List (String × Json)) (s : String)
    (p0 p1 : List Char) (rest : List (List Char)) (hr mn : Int)
    (hs : (ms.lookup "time24").getD .null = .str s) (hc : s.data.elem ':' = true)
    (hsplit : splitOnChar ':' s.data = p0 :: p1 :: rest)
    (hp0 : pyInt (String.mk p0) = some hr) (hp1 : pyInt (String.mk p1) = some mn)
    (b1 : 0 ≤ hr) (b2 : hr ≤ 23) (b3 : 0 ≤ mn) (b4 : mn ≤ 59) :
    compose_arrival_datetime d (.obj ms) =
      (if (d.replaceTime hr.toNat mn.toNat).ltb d then
        (d.replaceTime hr.toNat mn.toNat).addDayChecked
       else .ok (d.replaceTime hr.toNat mn.toNat)) := by
  simp only [compose_arrival_datetime]
  rw [hs]
  simp only [hc, if_true]
  rw [hsplit]
  dsimp only
  rw [hp0, hp1]
  dsimp only
  rw [if_neg (show ¬(hr < -2147483648 ∨ 2147483647 < hr) by omega),
    if_neg (show ¬(mn < -2147483648 ∨ 2147483647 < mn) by omega),
    if_pos ⟨b1, b2⟩, if_pos ⟨b3, b4⟩]

theorem compose_arrival_outrange (d : Datetime) (ms : List (String × Json)) (s : String)
    (p0 p1 : List Char) (rest : List (List Char)) (hr mn : Int)
    (hs : (ms.lookup "time24").getD .null = .str s) (hc : s.data.elem ':' = true)
    (hsplit : splitOnChar ':' s.data = p0 :: p1 :: rest)
    (hp0 : pyInt (String.mk p0) = some hr) (hp1 : pyInt (String.mk p1) = some mn)
    (hci0 : -2147483648 ≤ hr) (hci1 : hr ≤ 2147483647)
    (hci2 : -2147483648 ≤ mn) (hci3 : mn ≤ 2147483647)
    (hout : ¬(0 ≤ hr ∧ hr ≤ 23 ∧ 0 ≤ mn ∧ mn ≤ 59)) :
    ∃ msg, compose_arrival_datetime d (.obj ms) = .error (.valueError msg) := by
  simp only [compose_arrival_datetime]
  rw [hs]
  simp only [hc, if_true]
  rw [hsplit]
  dsimp only
  rw [hp0, hp1]
  dsimp only
  rw [if_neg (show ¬(hr < -2147483648 ∨ 2147483647 < hr) by omega),
    if_neg (show ¬(mn < -2147483648 ∨ 2147483647 < mn) by omega)]
  by_cases hh : 0 ≤ hr ∧ hr ≤ 23
  · refine ⟨"minute must be in 0..59", ?_⟩
    rw [if_pos hh, if_neg (fun hmn => hout ⟨hh.1, hh.2, hmn.1, hmn.2⟩)]
  · exact ⟨"hour must be in 0..23", by rw [if_neg hh]⟩

theorem compose_arrival_cint_overflow (d : Datetime) (ms : List (String × Json))
    (s : String) (p0 p1 : List Char) (rest : List (List Char)) (hr mn : Int)
    (hs : (ms.lookup "time24").getD .null = .str s) (hc : s.data.elem ':' = true)
    (hsplit : splitOnChar ':' s.data = p0 :: p1 :: rest)
    (hp0 : pyInt (String.mk p0) = some hr) (hp1 : pyInt (String.mk p1) = some mn)
    (hbig : hr < -2147483648 ∨ 2147483647 < hr ∨ mn < -2147483648 ∨ 2147483647 < mn) :
    compose_arrival_datetime d (.obj ms) =
      .error (.overflowError "Python int too large to convert to C int") := by
  simp only [compose_arrival_datetime]
  rw [hs]
  simp only [hc, if_true]
  rw [hsplit]
  dsimp only
  rw [hp0, hp1]
  dsimp only
  by_cases hho : hr < -2147483648 ∨ 2147483647 < hr
  · rw [if_pos hho]
  · have hmo : mn < -2147483648 ∨ 2147483647 < mn := by
      rcases hbig with hb | hb | hb | hb
      · exact absurd (Or.inl hb) hho
      · exact absurd (Or.inr hb) hho
      · exact Or.inl hb
      · exact Or.inr hb
    rw [if_neg hho, if_pos hmo]

/-- C4 (amended): the arrival defaults to the departure time exactly when the
payload is not a dict, time24 is absent or not a string, has no colon, or one
of its first two colon-separated fields fails integer parsing.  When both
fields parse, values within C-int range and within hour 0..23 / minute 0..59
are substituted into the departure's date with seconds and microseconds
zeroed, rolling forward one day iff the substitution is strictly earlier than
departure — an operation that itself raises OverflowError when the departure
date is datetime.max's 9999-12-31; in-C-int but out-of-range values make
replace raise ValueError, and values beyond C-int range make it raise
OverflowError; a 23:50 departure (not on 9999-12-31) with time24 00:15 lands
exactly one day after the naive same-day substitution. -/
theorem c4_arrival_composition :
    (∀ (d : Datetime) (p : Json), p.isObj = false →
      compose_arrival_datetime d p = .ok d) ∧
    (∀ (d : Datetime) (ms : List (String × Json)),
      (∀ s, (ms.lookup "time24").getD .null ≠ .str s) →
      compose_arrival_datetime d (.obj ms) = .ok d) ∧
    (∀ (d : Datetime) (ms : List (String × Json)) (s : String),
      (ms.lookup "time24").getD .null = .str s → s.data.elem ':' = false →
      compose_arrival_datetime d (.obj ms) = .ok d) ∧
    (∀ (d : Datetime) (ms : List (String × Json)) (s : String)
      (p0 p1 : List Char) (rest : List (List Char)),
      (ms.lookup "time24").getD .null = .str s → s.data.elem ':' = true →
      splitOnChar ':' s.data = p0 :: p1 :: rest →
      (pyInt (String.mk p0) = none ∨ pyInt (String.mk p1) = none) →
      compose_arrival_datetime d (.obj ms) = .ok d) ∧
    (∀ (d : Datetime) (ms : List (String × Json)) (s : String)
      (p0 p1 : List Char) (rest : List (List Char)) (hr mn : Int),
      (ms.lookup "time24").getD .null = .str s → s.data.elem ':' = true →
      splitOnChar ':' s.data = p0 :: p1 :: rest →
      pyInt (String.mk p0) = some hr → pyInt (String.mk p1) = some mn →
      0 ≤ hr → hr ≤ 23 → 0 ≤ mn → mn ≤ 59 →
      (d.replaceTime hr.toNat mn.toNat).ltb d = false →
      compose_arrival_datetime d (.obj ms) = .ok (d.replaceTime hr.toNat mn.toNat)) ∧
    (∀ (d : Datetime) (ms : List (String × Json)) (s : String)
      (p0 p1 : List Char) (rest : List (List Char)) (hr mn : Int),
      (ms.lookup "time24").getD .null = .str s → s.data.elem ':' = true →
      splitOnChar ':' s.data = p0 :: p1 :: rest →
      pyInt (String.mk p0) = some hr → pyInt (String.mk p1) = some mn →
      0 ≤ hr → hr ≤ 23 → 0 ≤ mn → mn ≤ 59 →
      (d.replaceTime hr.toNat mn.toNat).ltb d = true →
      ¬(d.year = 9999 ∧ d.month = 12 ∧ d.day = 31) →
      compose_arrival_datetime d (.obj ms) =
        .ok ((d.replaceTime hr.toNat mn.toNat).addDay)) ∧
    (∀ (d : Datetime) (ms : List (String × Json)) (s : String)
      (p0 p1 : List Char) (rest : List (List Char)) (hr mn : Int),
      (ms.lookup "time24").getD .null = .str s → s.data.elem ':' = true →
      splitOnChar ':' s.data = p0 :: p1 :: rest →
      pyInt (String.mk p0) = some hr → pyInt (String.mk p1) = some mn →
      0 ≤ hr → hr ≤ 23 → 0 ≤ mn → mn ≤ 59 →
      (d.replaceTime hr.toNat mn.toNat).ltb d = true →
      d.year = 9999 ∧ d.month = 12 ∧ d.day = 31 →
      compose_arrival_datetime d (.obj ms) =
        .error (.overflowError "date value out of range")) ∧
    (∀ (d : Datetime) (ms : List (String × Json)) (s : String)
      (p0 p1 : List Char) (rest : List (List Char)) (hr mn : Int),
      (ms.lookup "time24").getD .null = .str s → s.data.elem ':' = true →
      splitOnChar ':' s.data = p0 :: p1 :: rest →
      pyInt (String.mk p0) = some hr → pyInt (String.mk p1) = some mn →
      -2147483648 ≤ hr → hr ≤ 2147483647 → -2147483648 ≤ mn → mn ≤ 2147483647 →
      ¬(0 ≤ hr ∧ hr ≤ 23 ∧ 0 ≤ mn ∧ mn ≤ 59) →
      ∃ msg, compose_arrival_datetime d (.obj ms) = .error (.valueError msg)) ∧
    (∀ (d : Datetime) (ms : List (String × Json)) (s : String)
      (p0 p1 : List Char) (rest : List (List Char)) (hr mn : Int),
      (ms.lookup "time24").getD .null = .str s → s.data.elem ':' = true →
      splitOnChar ':' s.data = p0 :: p1 :: rest →
      pyInt (String.mk p0) = some hr → pyInt (String.mk p1) = some mn →
      (hr < -2147483648 ∨ 2147483647 < hr ∨ mn < -2147483648 ∨ 2147483647 < mn) →
      compose_arrival_datetime d (.obj ms) =
        .error (.overflowError "Python int too large to convert to C int")) ∧
    (∀ (y mo dd ss us : Nat), ¬(y = 9999 ∧ mo = 12 ∧ dd = 31) →
      compose_arrival_datetime ⟨y, mo, dd, 23, 50, ss, us⟩
          (.obj [("time24", .str "00:15")]) =
        .ok (Datetime.addDay ⟨y, mo, dd, 0, 15, 0, 0⟩)) := by
  refine ⟨fun d p hp => ?_, fun d ms hns => ?_, fun d ms s hs hc => ?_,
    fun d ms s p0 p1 rest hs hc hsplit hfail =>
      compose_arrival_parsefail d ms s p0 p1 rest hs hc hsplit hfail,
    fun d ms s p0 p1 rest hr mn hs hc hsplit hp0 hp1 b1 b2 b3 b4 hltb => ?_,
    fun d ms s p0 p1 rest hr mn hs hc hsplit hp0 hp1 b1 b2 b3 b4 hltb hmax => ?_,
    fun d ms s p0 p1 rest hr mn hs hc hsplit hp0 hp1 b1 b2 b3 b4 hltb hmax => ?_,
    fun d ms s p0 p1 rest hr mn hs hc hsplit hp0 hp1 hci0 hci1 hci2 hci3 hout =>
      compose_arrival_outrange d ms s p0 p1 rest hr mn hs hc hsplit hp0 hp1
        hci0 hci1 hci2 hci3 hout,
    fun d ms s p0 p1 rest hr mn hs hc hsplit hp0 hp1 hbig =>
      compose_arrival_cint_overflow d ms s p0 p1 rest hr mn hs hc hsplit hp0 hp1 hbig,
    fun y mo dd ss us hmax => ?_⟩
  · cases p <;> simp_all [compose_arrival_datetime, Json.isObj]
  · rcases hv : (List.lookup "time24" ms).getD Json.null with _ | b | n | t | xs | mss
    · simp only [compose_arrival_datetime]
    · simp only [compose_arrival_datetime]
    · simp only [compose_arrival_datetime]
    · exact absurd hv (hns t)
    · simp only [compose_arrival_datetime]
    · simp only [compose_arrival_datetime]
  · simp only [compose_arrival_datetime]
    rw [hs]
    dsimp only
    rw [hc]
    rfl
  · rw [compose_arrival_inrange d ms s p0 p1 rest hr mn hs hc hsplit hp0 hp1 b1 b2 b3 b4]
    simp [hltb]
  · rw [compose_arrival_inrange d ms s p0 p1 rest hr mn hs hc hsplit hp0 hp1 b1 b2 b3 b4]
    simp only [hltb, if_true]
    simp [Datetime.addDayChecked, Datetime.replaceTime, hmax]
  · rw [compose_arrival_inrange d ms s p0 p1 rest hr mn hs hc hsplit hp0 hp1 b1 b2 b3 b4]
    simp only [hltb, if_true]
    simp [Datetime.addDayChecked, Datetime.replaceTime, hmax.1, hmax.2.1, hmax.2.2]
  · rw [compose_arrival_inrange ⟨y, mo, dd, 23, 50, ss, us⟩ [("time24", .str "00:15")]
      "00:15" ['0', '0'] ['1', '5'] [] 0 15 (by decide) (by decide) (by decide)
      (by decide) (by decide) (by decide) (by decide) (by decide) (by decide)]
    have hlt : (Datetime.replaceTime ⟨y, mo, dd, 23, 50, ss, us⟩
        (Int.toNat 0) (Int.toNat 15)).ltb ⟨y, mo, dd, 23, 50, ss, us⟩ = true := by
      simp [Datetime.replaceTime, Datetime.ltb]
    rw [hlt]
    simp [Datetime.addDayChecked, Datetime.replaceTime, hmax]

theorem c4_witness :
    ((Json.str "x").isObj = false ∧
      compose_arrival_datetime ⟨2024, 5, 6, 23, 50, 0, 0⟩ (.str "x") =
        .ok ⟨2024, 5, 6, 23, 50, 0, 0⟩) ∧
    (¬((2024 : Nat) = 9999 ∧ (5 : Nat) = 12 ∧ (6 : Nat) = 31) ∧
      compose_arrival_datetime ⟨2024, 5, 6, 23, 50, 0, 0⟩ (.obj [("time24", .str "00:15")]) =
        .ok (Datetime.addDay ⟨2024, 5, 6, 0, 15, 0, 0⟩)) :=
  ⟨⟨by decide, c4_arrival_composition.1 ⟨2024, 5, 6, 23, 50, 0, 0⟩ (.str "x") (by decide)⟩,
   ⟨by decide, c4_arrival_composition.2.2.2.2.2.2.2.2.2 2024 5 6 0 0 (by decide)⟩⟩
